import Mathlib

/-!
Shallow embedding of the marginalia-atlas scene-synchronization core
(`src/marginaliaatlas/code.py`) and proofs about it.

Modelling conventions:
* Python dicts keyed by entity id (`G_INV`, `G_ATTACH`, `G_CANVAS`) become
  association lists `List (String × _)` with dict-style insert (replace in
  place or append) and erase; keys are unique in every reachable state.
* The selection set (`selection_set`) becomes a duplicate-free
  `List String` in insertion order (a Python `set` holds each element once;
  its iteration order is unspecified, and the model fixes insertion order).
* Python integers become `Int`; Python `//` is floor division, i.e. `Int.fdiv`.
* The only floating-point values in the modelled code are label coordinates
  (`(x0 + x1) / 2` in `load_attachments`); they are modelled as exact
  rationals (`ℚ`), which agrees with IEEE doubles for all realistic inputs
  (a sum of two coordinates halved is exact in binary floating point).
* Code that raises (KeyError / TypeError / ValueError / RuntimeError)
  becomes `Except String _`; the error string names the Python exception.
* Tk canvas primitive ids are opaque `Nat`s allocated from a counter
  (`nextId`); geometry/styles written to the Tk canvas itself are not model
  state (the code never reads them back).
-/

set_option maxRecDepth 10000

deriving instance DecidableEq for Except

namespace MarginaliaAtlas

/-- Association-list lookup, mirroring Python dict `get` / `in`. -/
def lookup {α : Type} (l : List (String × α)) (k : String) : Option α :=
  match l with
  | [] => none
  | (k', v) :: rest => if k = k' then some v else lookup rest k

/-- Dict assignment `d[k] = v`: replace the entry in place if the key exists,
otherwise append at the end (Python dicts preserve insertion order). -/
def insertEntry {α : Type} (l : List (String × α)) (k : String) (v : α) : List (String × α) :=
  match l with
  | [] => [(k, v)]
  | (k', v') :: rest => if k = k' then (k', v) :: rest else (k', v') :: insertEntry rest k v

/-- Dict deletion `del d[k]` / `d.pop(k)`: removes the first entry with the key
(keys are unique in every reachable state). -/
def eraseEntry {α : Type} (l : List (String × α)) (k : String) : List (String × α) :=
  match l with
  | [] => []
  | (k', v') :: rest => if k = k' then rest else (k', v') :: eraseEntry rest k

/-- Python truthiness of an optional string (None and "" are falsy). -/
def pyTruthyStr : Option String → Bool
  | none => false
  | some s => s != ""

/-- Python truthiness of an optional Tk canvas id (None and 0 are falsy;
Tk never hands out id 0). -/
def pyTruthyNat : Option Nat → Bool
  | none => false
  | some n => n != 0

/-- World-space bounding box `(x0, y0, x1, y1)` as stored in
`G_ATTACH[item_id]["bbox"]`. -/
structure Bbox where
  x0 : Int
  y0 : Int
  x1 : Int
  y1 : Int
deriving DecidableEq, Repr

/-- One `G_ATTACH` record: world bbox plus color. -/
structure Attachment where
  bbox : Bbox
  color : String
deriving DecidableEq, Repr

/-- One `G_INV` record. Only the fields the modelled core reads are kept:
`symbol` (label text) and `modules` (module-highlight rule); the remaining
inventory fields (source_file, line_number, raw, threads, callers, flags,
custom) are only consumed by the external detail-view renderer. -/
structure InventoryItem where
  symbol : String
  modules : List String
deriving DecidableEq, Repr

/-- One `G_CANVAS` record: canvas primitive ids (owned by the renderer),
declarative existence flags and projected render intent (written by rules). -/
structure CanvasData where
  rect : Option Nat
  label : Option Nat
  handles : List Nat
  rect_shouldexist : Bool
  label_shouldexist : Bool
  handles_shouldexist : Bool
  rect_coords : Bbox
  rect_outline : String
  rect_width : Int
  rect_fill : String
  label_coord : ℚ × ℚ
  label_text : String
  label_color : String
deriving DecidableEq, Repr

/-- The `G_DRAG` dict. `canvas_item` is absent from the initializer and only
added by `start_drag`; modelled as an `Option` that starts out `none`.
`clear_drag` deliberately does not reset it, matching the source. -/
structure DragState where
  item_id : Option String
  x : Int
  y : Int
  handle : Option Nat
  corner : Option String
  mode : Option String
  canvas_item : Option Nat
deriving DecidableEq, Repr

/-- The global dict `g`: module highlight, hover state, camera, rational zoom
and the recorded canvas viewport size. `g` is created with exactly these keys
and no other key is ever assigned to it anywhere in the program. -/
structure ViewState where
  module_highlight : Option String
  hover_canvas_item : Option Nat
  cam_x : Int
  cam_y : Int
  zoom_num : Int
  zoom_den : Int
  canvas_view_w : Int
  canvas_view_h : Int
deriving DecidableEq, Repr

/-- The whole mutable model state: inventory, attachments, render intent,
selection, drag state, view state, and the Tk id allocator. -/
structure AppState where
  inv : List (String × InventoryItem)
  attach : List (String × Attachment)
  canvas : List (String × CanvasData)
  sel : List String
  drag : DragState
  view : ViewState
  nextId : Nat
deriving DecidableEq

/-- The coordinate machine's registers (`CUR["x"] .. CUR["y1"]`,
`CUR["coord_type"]`), always all in the same space, `"w"` or `"c"`. -/
structure CurState where
  x : Int
  y : Int
  x0 : Int
  y0 : Int
  x1 : Int
  y1 : Int
  coord_type : String
deriving DecidableEq, Repr

/-- Initial register contents at program start. -/
def cur0 : CurState :=
  { x := 0, y := 0, x0 := 0, y0 := 0, x1 := 0, y1 := 0, coord_type := "w" }

/-- Initial `G_DRAG`. -/
def drag0 : DragState :=
  { item_id := none, x := 0, y := 0, handle := none, corner := none, mode := none,
    canvas_item := none }

/-- Initial `g`. -/
def view0 : ViewState :=
  { module_highlight := none, hover_canvas_item := none, cam_x := 0, cam_y := 0,
    zoom_num := 1, zoom_den := 1, canvas_view_w := 0, canvas_view_h := 0 }

/-! ## Coordinate machine (`project_to` and register operations) -/

/-- One axis of `w_to_c` inside `project_to`:
`((x - cam) * zn) // zd + vc` with Python floor division. -/
def projAxis (cam zn zd vc x : Int) : Int :=
  ((x - cam) * zn).fdiv zd + vc

/-- One axis of `c_to_w` inside `project_to`:
`((x - vc) * zd) // zn + cam` with Python floor division. -/
def unprojAxis (cam zn zd vc x : Int) : Int :=
  ((x - vc) * zd).fdiv zn + cam

/-- Viewport center x, `g["canvas_view_w"] // 2`. -/
def vcx (v : ViewState) : Int := v.canvas_view_w.fdiv 2

/-- Viewport center y, `g["canvas_view_h"] // 2`. -/
def vcy (v : ViewState) : Int := v.canvas_view_h.fdiv 2

/-- `w_to_c` on the x axis. -/
def wToCx (v : ViewState) (x : Int) : Int := projAxis v.cam_x v.zoom_num v.zoom_den (vcx v) x

/-- `w_to_c` on the y axis. -/
def wToCy (v : ViewState) (y : Int) : Int := projAxis v.cam_y v.zoom_num v.zoom_den (vcy v) y

/-- `c_to_w` on the x axis. -/
def cToWx (v : ViewState) (x : Int) : Int := unprojAxis v.cam_x v.zoom_num v.zoom_den (vcx v) x

/-- `c_to_w` on the y axis. -/
def cToWy (v : ViewState) (y : Int) : Int := unprojAxis v.cam_y v.zoom_num v.zoom_den (vcy v) y

/-- `project_to(dst)`: no-op if already in the target space, world→canvas and
canvas→world transforms for both registers, any other transition is a
programming error (`RuntimeError`). -/
def project_to (v : ViewState) (dst : String) (cur : CurState) : Except String CurState :=
  if cur.coord_type = dst then .ok cur
  else if cur.coord_type = "w" ∧ dst = "c" then
    .ok { x := wToCx v cur.x, y := wToCy v cur.y,
          x0 := wToCx v cur.x0, y0 := wToCy v cur.y0,
          x1 := wToCx v cur.x1, y1 := wToCy v cur.y1, coord_type := "c" }
  else if cur.coord_type = "c" ∧ dst = "w" then
    .ok { x := cToWx v cur.x, y := cToWy v cur.y,
          x0 := cToWx v cur.x0, y0 := cToWy v cur.y0,
          x1 := cToWx v cur.x1, y1 := cToWy v cur.y1, coord_type := "w" }
  else .error "RuntimeError: project_to invalid transition"

/-- `load_pt("event")`: point register from the mouse event, space `"c"`. -/
def load_pt_event (evx evy : Int) (cur : CurState) : CurState :=
  { cur with x := evx, y := evy, coord_type := "c" }

/-- `load_pt` for the rect-derived sources (`center`, `center-south` and the
four corners); the `"event"` source is `load_pt_event` and the `"label"`
source is only used inside the renderer, which does not write model state.
An unknown source is a `ValueError`. -/
def load_pt (src : String) (cur : CurState) : Except String CurState :=
  if src = "center" then
    .ok { cur with x := (cur.x0 + cur.x1).fdiv 2, y := (cur.y0 + cur.y1).fdiv 2 }
  else if src = "center-south" then
    .ok { cur with x := (cur.x0 + cur.x1).fdiv 2, y := cur.y1 }
  else if src = "nw" then .ok { cur with x := cur.x0, y := cur.y0 }
  else if src = "ne" then .ok { cur with x := cur.x1, y := cur.y0 }
  else if src = "se" then .ok { cur with x := cur.x1, y := cur.y1 }
  else if src = "sw" then .ok { cur with x := cur.x0, y := cur.y1 }
  else .error "ValueError: load_pt unknown src"

/-- `store_pt` for the four corner destinations: write the point register into
one corner of the rect register, preserving the opposite corner. The
`"center"` destination computes in Python floats and is never invoked by any
modelled call site (`apply_drag` only passes corner tags), so it is omitted;
anything else is a `ValueError`. -/
def store_pt (dst : String) (cur : CurState) : Except String CurState :=
  if dst = "nw" then .ok { cur with x0 := cur.x, y0 := cur.y }
  else if dst = "ne" then .ok { cur with x1 := cur.x, y0 := cur.y }
  else if dst = "se" then .ok { cur with x1 := cur.x, y1 := cur.y }
  else if dst = "sw" then .ok { cur with x0 := cur.x, y1 := cur.y }
  else .error "ValueError: store_pt unknown dst"

/-- `slide_pt(dx, dy)`. -/
def slide_pt (dx dy : Int) (cur : CurState) : CurState :=
  { cur with x := cur.x + dx, y := cur.y + dy }

/-- `slide_rect(dx, dy)`. -/
def slide_rect (dx dy : Int) (cur : CurState) : CurState :=
  { cur with x0 := cur.x0 + dx, y0 := cur.y0 + dy, x1 := cur.x1 + dx, y1 := cur.y1 + dy }

/-- `explode_pt(size)`: rect register centered on the point register. -/
def explode_pt (size : Int) (cur : CurState) : CurState :=
  { cur with x0 := cur.x - size, y0 := cur.y - size, x1 := cur.x + size, y1 := cur.y + size }

/-- `load_rect("attachment")`: rect register from `G_ATTACH[item_id]["bbox"]`,
space becomes `"w"`; KeyError if the attachment is missing. -/
def load_rect_attachment (attach : List (String × Attachment)) (item_id : String)
    (cur : CurState) : Except String CurState :=
  match lookup attach item_id with
  | none => .error "KeyError: load_rect attachment"
  | some a =>
    .ok { cur with x0 := a.bbox.x0, y0 := a.bbox.y0, x1 := a.bbox.x1, y1 := a.bbox.y1,
                   coord_type := "w" }

/-- `store_rect("attachment")`: write the rect register into
`G_ATTACH[item_id]["bbox"]` (color untouched); RuntimeError unless the
registers are in world space, KeyError if the attachment is missing. -/
def store_rect_attachment (attach : List (String × Attachment)) (item_id : String)
    (cur : CurState) : Except String (List (String × Attachment)) :=
  if cur.coord_type ≠ "w" then .error "RuntimeError: store_rect needs world space"
  else
    match lookup attach item_id with
    | none => .error "KeyError: store_rect attachment"
    | some a =>
      .ok (insertEntry attach item_id
        { a with bbox := { x0 := cur.x0, y0 := cur.y0, x1 := cur.x1, y1 := cur.y1 } })

/-! ## Selection queries -/

/-- `is_selected()`: `CUR["item_id"] in selection_set`. -/
def is_selectedB (sel : List String) (id : String) : Bool :=
  decide (id ∈ sel)

/-- `is_only_selected()`: `is_selected() and len(selection_set) == 1`. -/
def is_only_selectedB (sel : List String) (id : String) : Bool :=
  is_selectedB sel id && decide (sel.length = 1)

/-- `only_selected()`: the sole member (`next(iter(selection_set))`) if the
selection has size 1, else None. -/
def only_selected (sel : List String) : Option String :=
  if sel.length = 1 then sel.head? else none

/-! ## Rule pipeline

`initialize_rules_at_program_start` installs, in order:
`rule_default_appearance`, `rule_module_highlight`, `rule_selected_highlight`,
`rule_handles`; `apply_rules` runs them in that order on the current item. -/

/-- `rule_default_appearance` (the second, effective definition in the
source): unconditional defaults for the rect and the label derived from the
attachment bbox and the inventory symbol. -/
def rule_default_appearance (inv : InventoryItem) (att : Attachment) (D : CanvasData) :
    CanvasData :=
  { D with rect_coords := att.bbox, rect_outline := "white", rect_width := 1,
           rect_fill := "#88ccff",
           label_coord := (((att.bbox.x0 + 5 : Int) : ℚ), ((att.bbox.y1 + 10 : Int) : ℚ)),
           label_text := inv.symbol, label_color := "white" }

/-- `rule_module_highlight`: `if highlight and highlight in CUR["item_modules"]`
(empty-string highlight is falsy in Python). -/
def rule_module_highlight (modules : List String) (hl : Option String) (D : CanvasData) :
    CanvasData :=
  match hl with
  | none => D
  | some h => if h ≠ "" ∧ h ∈ modules then { D with rect_width := 3, rect_outline := "red" } else D

/-- `rule_selected_highlight`: selected items get a yellow width-3 outline. -/
def rule_selected_highlight (sel : List String) (id : String) (D : CanvasData) : CanvasData :=
  if is_selectedB sel id then { D with rect_outline := "yellow", rect_width := 3 } else D

/-- `rule_handles`: `handles_shouldexist = is_only_selected()`. -/
def rule_handles (sel : List String) (id : String) (D : CanvasData) : CanvasData :=
  { D with handles_shouldexist := is_only_selectedB sel id }

/-- `apply_rules` for one item: the four installed rules in order. -/
def apply_rules_item (inv : InventoryItem) (att : Attachment) (sel : List String)
    (hl : Option String) (id : String) (D : CanvasData) : CanvasData :=
  rule_handles sel id
    (rule_selected_highlight sel id
      (rule_module_highlight inv.modules hl
        (rule_default_appearance inv att D)))

/-- One step of `foreach_item(apply_rules)`: `iterate_item` fetches the item's
attachment and inventory record; `rule_default_appearance` dies with a
TypeError when the attachment is missing (`None["bbox"]`) and with a KeyError
when the inventory record is missing (`G_INV[item_id]`). The `Nat`
accumulator is unused here (shared shape with the renderer pass). -/
def rules_item_step (inv : List (String × InventoryItem)) (attach : List (String × Attachment))
    (sel : List String) (hl : Option String) (acc : Nat) (id : String) (D : CanvasData) :
    Except String (Nat × CanvasData) :=
  match lookup attach id with
  | none => .error "TypeError: item_attachment_data is None"
  | some a =>
    match lookup inv id with
    | none => .error "KeyError: G_INV"
    | some i => .ok (acc, apply_rules_item i a sel hl id D)

/-- Run a per-item pass over the `G_CANVAS` entries in insertion order,
threading the Tk id allocator. -/
def mapEntriesM (f : Nat → String → CanvasData → Except String (Nat × CanvasData)) :
    Nat → List (String × CanvasData) → Except String (Nat × List (String × CanvasData))
  | acc, [] => .ok (acc, [])
  | acc, (id, D) :: rest =>
    match f acc id D with
    | .error e => .error e
    | .ok (acc', D') =>
      match mapEntriesM f acc' rest with
      | .error e => .error e
      | .ok (acc'', rest') => .ok (acc'', (id, D') :: rest')

/-- `foreach_item(apply_rules)`: run the rule list over every `G_CANVAS`
entry. Only the canvas store changes. -/
def rules_pass (st : AppState) : Except String AppState :=
  match mapEntriesM (rules_item_step st.inv st.attach st.sel st.view.module_highlight)
      st.nextId st.canvas with
  | .error e => .error e
  | .ok (_, canvas') => .ok { st with canvas := canvas' }

/-! ## Diffing renderer (`render_all`)

Per entity: create a primitive when `shouldExist` and none is stored, keep
(and unmark as orphan) when one is stored, clear the stored reference when
`shouldExist` is false; handles are created and destroyed as a group of
exactly 4. The geometry and styles are written only to the Tk canvas (the
model never reads them back), so the model records just the id bookkeeping;
the `load_rect("attachment")` calls inside the existing branches still raise
KeyError when the attachment is missing, which is kept. The orphan sweep at
the end deletes Tk primitives that no entity references any more; the model
state holds only the references themselves. -/

/-- `render_all`'s body for one entity. -/
def render_item (attach : List (String × Attachment)) (acc : Nat) (id : String)
    (D : CanvasData) : Except String (Nat × CanvasData) :=
  let rectAcc : Nat × Option Nat :=
    if D.rect_shouldexist then
      match D.rect with
      | none => (acc + 1, some acc)
      | some r => (acc, some r)
    else (acc, none)
  if D.rect_shouldexist ∧ (lookup attach id).isNone then
    .error "KeyError: load_rect attachment"
  else
    let labelAcc : Nat × Option Nat :=
      if D.label_shouldexist then
        match D.label with
        | none => (rectAcc.1 + 1, some rectAcc.1)
        | some l => (rectAcc.1, some l)
      else (rectAcc.1, none)
    let handlesAcc : Nat × List Nat :=
      if D.handles_shouldexist then
        match D.handles with
        | [] => (labelAcc.1 + 4, [labelAcc.1, labelAcc.1 + 1, labelAcc.1 + 2, labelAcc.1 + 3])
        | hs => (labelAcc.1, hs)
      else (labelAcc.1, [])
    if D.handles_shouldexist ∧ (lookup attach id).isNone then
      .error "KeyError: load_rect attachment"
    else
      .ok (handlesAcc.1,
        { D with rect := rectAcc.2, label := labelAcc.2, handles := handlesAcc.2 })

/-- `render_all` over the whole canvas store. -/
def render_all (st : AppState) : Except String AppState :=
  match mapEntriesM (render_item st.attach) st.nextId st.canvas with
  | .error e => .error e
  | .ok (acc', canvas') => .ok { st with canvas := canvas', nextId := acc' }

/-- `sync_all()`: rules over all items, then render. -/
def sync_all (st : AppState) : Except String AppState :=
  match rules_pass st with
  | .error e => .error e
  | .ok st' => render_all st'

/-! ## Selection & highlight mutations

`sync_tree_selection` and `sync_json_view` only repaint the external tree and
detail-view widgets from current state; they mutate no model state and are
therefore not part of the embedding. -/

/-- `toggle_selected()`: add or remove `CUR["item_id"]`, then synchronize. -/
def toggle_selected (st : AppState) (curItemId : String) : Except String AppState :=
  let sel' := if curItemId ∈ st.sel then st.sel.erase curItemId else st.sel ++ [curItemId]
  sync_all { st with sel := sel' }

/-- `clear_selection()`. -/
def clear_selection (st : AppState) : Except String AppState :=
  sync_all { st with sel := [] }

/-- `set_selected()`: replace the selection with `{CUR["item_id"]}` and clear
the module highlight, then synchronize. -/
def set_selected (st : AppState) (curItemId : String) : Except String AppState :=
  sync_all { st with sel := [curItemId],
                     view := { st.view with module_highlight := none } }

/-- `set_module_highlight(module)`: no-op when unchanged, otherwise store the
new highlight and synchronize. Note: it does not touch the selection set. -/
def set_module_highlight (st : AppState) (module : Option String) : Except String AppState :=
  if module = st.view.module_highlight then .ok st
  else sync_all { st with view := { st.view with module_highlight := module } }

/-! ## Drag state -/

/-- `clear_drag()`: reset all `G_DRAG` fields except `canvas_item`, which the
source function does not touch. -/
def clear_drag (st : AppState) : AppState :=
  { st with drag := { st.drag with item_id := none, x := 0, y := 0, handle := none,
                                   corner := none, mode := none } }

/-- `cancel_drag()`. -/
def cancel_drag (st : AppState) : AppState := clear_drag st

/-- `start_drag(mode)`: capture drag-start context from the current event.
`is_handle` and `corner_for_handle` interrogate Tk canvas tags, so the
display layer's answers arrive as the inputs `topIsHandle` / `topCorner`. -/
def start_drag (st : AppState) (mode : String) (evx evy : Int) (top : Option Nat)
    (topItemId : Option String) (topIsHandle : Bool) (topCorner : Option String) :
    Except String AppState :=
  let st := clear_drag st
  let st := { st with drag := { st.drag with mode := some mode, x := evx, y := evy } }
  if mode = "item" then
    let st := { st with drag :=
      { st.drag with item_id := topItemId, canvas_item := top,
                     handle := if pyTruthyNat top ∧ topIsHandle then top else none,
                     corner := if pyTruthyNat top ∧ topIsHandle then topCorner else none } }
    match topItemId with
    | some id => if is_selectedB st.sel id then .ok st else set_selected st id
    | none =>
      -- `is_selected()` is False and `set_selected()` would insert None into
      -- the selection set; no call site reaches this (mode "item" is chosen
      -- only when `CUR["top_item_id"]` is truthy).
      .error "unreachable: start_drag item without top_item_id"
  else if mode = "pan" then
    .ok { st with drag := { st.drag with item_id := none, canvas_item := none,
                                         handle := none, corner := none } }
  else .error "ValueError: start_drag unknown mode"

/-- `apply_drag(item_id, dx, dy)`: load the attachment bbox into the rect
register (world space); with an active handle, move just the captured corner
by the raw event delta; otherwise slide the whole rect; store back. The
delta is the screen-space pointer delta applied directly to world
coordinates — nothing projects it through the coordinate machine. -/
def apply_drag (st : AppState) (cur : CurState) (item_id : String) (dx dy : Int) :
    Except String (AppState × CurState) :=
  match load_rect_attachment st.attach item_id cur with
  | .error e => .error e
  | .ok cur =>
    let afterMove : Except String CurState :=
      if pyTruthyNat st.drag.handle then
        match st.drag.corner with
        | none => .error "ValueError: load_pt unknown src"
        | some c =>
          match load_pt c cur with
          | .error e => .error e
          | .ok cur => store_pt c (slide_pt dx dy cur)
      else .ok (slide_rect dx dy cur)
    match afterMove with
    | .error e => .error e
    | .ok cur =>
      match store_rect_attachment st.attach item_id cur with
      | .error e => .error e
      | .ok attach' => .ok ({ st with attach := attach' }, cur)

/-- Abbreviation used in statements: the attachment with its bbox translated
by `(dx, dy)` and its color kept. -/
def translateAttachment (a : Attachment) (dx dy : Int) : Attachment :=
  { a with bbox := { x0 := a.bbox.x0 + dx, y0 := a.bbox.y0 + dy,
                     x1 := a.bbox.x1 + dx, y1 := a.bbox.y1 + dy } }

/-! ## Attachment lifecycle -/

/-- `attach_new_square()`: project the press position to world space, create
a default-size (40×40) attachment centered there for the sole selected item,
create its render-intent record, and synchronize. -/
def attach_new_square (st : AppState) (cur : CurState) (evx evy : Int) :
    Except String AppState :=
  let size : Int := 40
  match only_selected st.sel with
  | none =>
    -- only_selected() returned None; building the canvas entry would then hit
    -- G_INV[None] and die with KeyError. The press handler's guard prevents
    -- this call from happening.
    .error "KeyError: G_INV"
  | some item_id =>
    let cur := load_pt_event evx evy cur
    match project_to st.view "w" cur with
    | .error e => .error e
    | .ok cur =>
      let cur := explode_pt (size.fdiv 2) cur
      let bbox : Bbox := { x0 := cur.x0, y0 := cur.y0, x1 := cur.x1, y1 := cur.y1 }
      let attach' := insertEntry st.attach item_id { bbox := bbox, color := "#88ccff" }
      -- load_pt("sw"); slide_pt(5, 10): label at (x0 + 5, y1 + 10), world space
      let labelx := cur.x0 + 5
      let labely := cur.y1 + 10
      match lookup st.inv item_id with
      | none => .error "KeyError: G_INV"
      | some invItem =>
        let D : CanvasData :=
          { rect := none, label := none, handles := [],
            rect_shouldexist := true, label_shouldexist := true, handles_shouldexist := false,
            rect_coords := bbox, rect_outline := "white", rect_width := 1,
            rect_fill := "#88ccff",
            label_coord := ((labelx : ℚ), (labely : ℚ)),
            label_text := invItem.symbol, label_color := "white" }
        sync_all { st with attach := attach', canvas := insertEntry st.canvas item_id D }

/-- `item_id = g["item_id"]` at the top of `delete_attachment`: the dict `g`
is created without an `"item_id"` key and no statement in the program ever
assigns `g["item_id"]`, so this lookup raises KeyError unconditionally. -/
def gItemIdLookup : Except String String :=
  .error "KeyError: item_id"

/-- The remainder of `delete_attachment` after the `g["item_id"]` fetch
(dead code at run time, kept for completeness): de-select via the guarded
toggle, cancel any drag that references the item, delete the canvas record
and the attachment. -/
def delete_attachment_rest (st : AppState) (curItemId item_id : String) :
    Except String AppState :=
  match (if is_selectedB st.sel curItemId then toggle_selected st curItemId else .ok st) with
  | .error e => .error e
  | .ok st =>
    let st := if st.drag.item_id = some item_id then cancel_drag st else st
    if (lookup st.canvas item_id).isNone then .error "KeyError: del G_CANVAS"
    else
      let st := { st with canvas := eraseEntry st.canvas item_id }
      if (lookup st.attach item_id).isNone then .error "KeyError: del G_ATTACH"
      else .ok { st with attach := eraseEntry st.attach item_id }

/-- `delete_attachment()` (called with `CUR["item_id"] = curItemId` already
loaded by `iterate_item`). -/
def delete_attachment (st : AppState) (curItemId : String) : Except String AppState :=
  match gItemIdLookup with
  | .error e => .error e
  | .ok item_id => delete_attachment_rest st curItemId item_id

/-- `iterate_item(item_id); delete_attachment()` over a list of ids — the
loop body shared by `on_delete_key` and the clearing phase of
`load_attachments`. -/
def delete_each (st : AppState) : List String → Except String AppState
  | [] => .ok st
  | id :: rest =>
    match delete_attachment st id with
    | .error e => .error e
    | .ok st' => delete_each st' rest

/-- `on_delete_key()`: delete every currently selected item (iterating a
snapshot of the selection set). -/
def on_delete_key (st : AppState) : Except String AppState :=
  delete_each st st.sel

/-! ## Canvas event handlers

`dispatch_event` loads the event, the topmost canvas item under the pointer
(`CUR["top"]`, a Tk query) and the entity it belongs to (`CUR["top_item_id"]`)
before invoking a handler; these arrive as handler inputs here. -/

/-- `on_canvas_button_press()`: press on empty canvas with a unique unplaced
selection creates an attachment; any other press starts an item or pan drag. -/
def on_canvas_button_press (st : AppState) (cur : CurState) (top : Option Nat)
    (topItemId : Option String) (topIsHandle : Bool) (topCorner : Option String)
    (evx evy : Int) : Except String AppState :=
  let selectedItemId := only_selected st.sel
  if !pyTruthyNat top && pyTruthyStr selectedItemId &&
      (match selectedItemId with
       | some i => !(lookup st.canvas i).isSome
       | none => true) then
    attach_new_square st cur evx evy
  else
    start_drag st (if pyTruthyStr topItemId then "item" else "pan") evx evy
      top topItemId topIsHandle topCorner

/-- `on_canvas_motion()`: pan moves the camera against the pointer by
`delta * zoom_den // zoom_num`; an item/handle drag applies the raw pointer
delta via `apply_drag`, synchronizes and updates the anchor; a vanished drag
target cancels the drag. -/
def on_canvas_motion (st : AppState) (cur : CurState) (evx evy : Int) :
    Except String AppState :=
  if st.drag.mode = some "pan" then
    let dx := evx - st.drag.x
    let dy := evy - st.drag.y
    let v := st.view
    let v := { v with cam_x := v.cam_x - (dx * v.zoom_den).fdiv v.zoom_num,
                      cam_y := v.cam_y - (dy * v.zoom_den).fdiv v.zoom_num }
    sync_all { st with view := v, drag := { st.drag with x := evx, y := evy } }
  else if st.drag.mode = some "item" then
    match st.drag.item_id with
    | none => .ok (cancel_drag st)
    | some item_id =>
      if item_id = "" ∨ (lookup st.canvas item_id).isNone then .ok (cancel_drag st)
      else
        let dx := evx - st.drag.x
        let dy := evy - st.drag.y
        match apply_drag st cur item_id dx dy with
        | .error e => .error e
        | .ok (st, _) =>
          match sync_all st with
          | .error e => .error e
          | .ok st => .ok { st with drag := { st.drag with x := evx, y := evy } }
  else .ok st

/-! ## Attachment layout persistence (`save_attachments` / `load_attachments`)

The JSON file is a mapping from entity id to `{bbox, color}` plus the two
reserved keys `_layout` and `_window`; their payloads (pane layout, window
geometry) are produced/consumed by the external pane/window collaborators and
stay opaque here. File existence checks, JSON encoding and the Tk
pane/window restore calls at the end of `load_attachments` are I/O and
widget glue outside the model. -/

/-- One value in the persisted mapping. -/
inductive SavedValue where
  | entry (bbox : List Int) (color : Option String)
  | blob (payload : String)
deriving DecidableEq, Repr

/-- What `save_attachments` writes for one attachment:
`{"bbox": list(meta["bbox"]), "color": meta.get("color", "#88ccff")}`
(attachments always carry a color, so the fallback never fires on save). -/
def savedOfAttachment (a : Attachment) : SavedValue :=
  .entry [a.bbox.x0, a.bbox.y0, a.bbox.x1, a.bbox.y1] (some a.color)

/-- `save_attachments()`: dump every attachment, then add the `_layout` and
`_window` reserved keys. -/
def save_attachments (st : AppState) (layoutPayload windowPayload : String) :
    List (String × SavedValue) :=
  let data := st.attach.foldl (fun d p => insertEntry d p.1 (savedOfAttachment p.2)) []
  let data := insertEntry data "_layout" (.blob layoutPayload)
  insertEntry data "_window" (.blob windowPayload)

/-- The `G_CANVAS` record `load_attachments` rebuilds for one restored
attachment (`cx = (x0 + x1) / 2` is Python float division, modelled
exactly in ℚ). -/
def loadedCanvasData (x0 y0 x1 y1 : Int) (color symbol : String) : CanvasData :=
  { rect := none, label := none, handles := [],
    rect_shouldexist := true, label_shouldexist := true, handles_shouldexist := false,
    rect_coords := { x0 := x0, y0 := y0, x1 := x1, y1 := y1 },
    rect_outline := "white", rect_width := 1, rect_fill := color,
    label_coord := (((x0 : ℚ) + (x1 : ℚ)) / 2, (y1 : ℚ) + 10),
    label_text := symbol, label_color := "white" }

/-- The rebuild loop of `load_attachments`: ids without a matching inventory
record are skipped silently; a bbox that does not unpack into four values is
a ValueError, a non-dict value a TypeError. -/
def rebuild_entries (st : AppState) : List (String × SavedValue) → Except String AppState
  | [] => .ok st
  | (id, v) :: rest =>
    match lookup st.inv id with
    | none => rebuild_entries st rest
    | some invItem =>
      match v with
      | .entry bbox color =>
        match bbox with
        | [x0, y0, x1, y1] =>
          let c := color.getD "#88ccff"
          rebuild_entries
            { st with
              attach := insertEntry st.attach id
                { bbox := { x0 := x0, y0 := y0, x1 := x1, y1 := y1 }, color := c },
              canvas := insertEntry st.canvas id
                (loadedCanvasData x0 y0 x1 y1 c invItem.symbol) } rest
        | _ => .error "ValueError: bbox does not unpack"
      | .blob _ => .error "TypeError: meta is not a dict"

/-- `load_attachments()` on already-parsed data: clear existing attachments
(via `delete_attachment` over a snapshot of the canvas keys), pop the two
reserved keys, rebuild model and render intent, synchronize. The popped
`_layout` / `_window` payloads are forwarded to the external pane/window
collaborators and change no model state. -/
def load_attachments (st : AppState) (data : List (String × SavedValue)) :
    Except String AppState :=
  match delete_each st (st.canvas.map Prod.fst) with
  | .error e => .error e
  | .ok st =>
    let data := eraseEntry data "_layout"
    let data := eraseEntry data "_window"
    match rebuild_entries st data with
    | .error e => .error e
    | .ok st => sync_all st

/-! ## The selection mutations as the program actually issues them

`set_selected`, `clear_selection` and `toggle_selected` are the only places
the selection can change (docstring of `set_selected`). The single static
call site of `toggle_selected` is `delete_attachment`, where it runs under an
`is_selected()` guard, so in the running program a toggle only ever removes
the toggled id. `SelOp` enumerates exactly these reachable mutations. -/
inductive SelOp where
  | set (id : String)
  | clear
  | deleteToggle (id : String)
deriving DecidableEq, Repr

/-- Apply one reachable selection mutation. `deleteToggle` is
`if is_selected(): toggle_selected()` from `delete_attachment`. -/
def applySelOp (st : AppState) : SelOp → Except String AppState
  | .set id => set_selected st id
  | .clear => clear_selection st
  | .deleteToggle id => if is_selectedB st.sel id then toggle_selected st id else .ok st

/-- Run a sequence of reachable selection mutations. -/
def runSelOps (st : AppState) : List SelOp → Except String AppState
  | [] => .ok st
  | op :: ops =>
    match applySelOp st op with
    | .error e => .error e
    | .ok st' => runSelOps st' ops

/-! ## Concrete states used by witnesses and counterexamples -/

/-- A freshly created render-intent record for item `"a"` with bbox
(0,0,40,40), as `attach_new_square` would shape it. -/
def exCanvasA : CanvasData :=
  { rect := none, label := none, handles := [],
    rect_shouldexist := true, label_shouldexist := true, handles_shouldexist := false,
    rect_coords := { x0 := 0, y0 := 0, x1 := 40, y1 := 40 },
    rect_outline := "white", rect_width := 1, rect_fill := "#88ccff",
    label_coord := (5, 50), label_text := "A", label_color := "white" }

/-- A state with one inventory item `"a"`, attached with bbox (0,0,40,40)
and selected. -/
def exC1 : AppState :=
  { inv := [("a", { symbol := "A", modules := [] })],
    attach := [("a", { bbox := { x0 := 0, y0 := 0, x1 := 40, y1 := 40 }, color := "#88ccff" })],
    canvas := [("a", exCanvasA)],
    sel := ["a"], drag := drag0, view := view0, nextId := 10 }

/-- Empty model with item `"a"` selected (as after selecting a leaf in the
tree before placing any box), no highlight. -/
def exC2 : AppState :=
  { inv := [], attach := [], canvas := [], sel := ["a"], drag := drag0, view := view0,
    nextId := 1 }

/-- The state `set_module_highlight(exC2, "m1")` produces. -/
def exC2' : AppState := (set_module_highlight exC2 (some "m1")).toOption.getD exC2

/-- Completely empty model state. -/
def exEmpty : AppState :=
  { inv := [], attach := [], canvas := [], sel := [], drag := drag0, view := view0,
    nextId := 1 }

/-- The state `set_selected(exEmpty, "a")` produces. -/
def exSetSel : AppState := (set_selected exEmpty "a").toOption.getD exEmpty

/-- Scenario B start: item `"a"` attached at (0,0,40,40) and selected, a
handle drag of its `"se"` corner in progress anchored at (0,0). -/
def exB1 : AppState :=
  { exC1 with drag := { item_id := some "a", x := 0, y := 0, handle := some 7,
                        corner := some "se", mode := some "item", canvas_item := some 7 } }

/-- Scenario B after the handle drag to (10,10). -/
def exB2 : AppState := (on_canvas_motion exB1 cur0 10 10).toOption.getD exB1

/-- Scenario B with a fresh body drag (no handle) anchored at (0,0). -/
def exB3 : AppState :=
  { exB2 with drag := { item_id := some "a", x := 0, y := 0, handle := none,
                        corner := none, mode := some "item", canvas_item := some 5 } }

/-- Scenario B after the body drag to (5,5). -/
def exB4 : AppState := (on_canvas_motion exB3 cur0 5 5).toOption.getD exB3

/-- The Scenario-B state viewed at zoom 2/1 with a body drag in progress. -/
def exC3 : AppState :=
  { exB3 with view := { view0 with zoom_num := 2, zoom_den := 1 } }

/-- `exC3` after a body drag by pointer delta (1,1). -/
def exC3' : AppState := (on_canvas_motion exC3 cur0 1 1).toOption.getD exC3

/-- View state zoomed out to 1/5 at camera (0,0), viewport (0,0). -/
def exV4 : ViewState := { view0 with zoom_num := 1, zoom_den := 5 }

/-- World-space registers holding the point (4,4). -/
def exCur4 : CurState := { x := 4, y := 4, x0 := 0, y0 := 0, x1 := 0, y1 := 0,
                           coord_type := "w" }

/-- `exCur4` projected to canvas space at zoom 1/5. -/
def exCur4c : CurState := (project_to exV4 "c" exCur4).toOption.getD exCur4

/-- `exCur4c` projected back to world space. -/
def exCur4w : CurState := (project_to exV4 "w" exCur4c).toOption.getD exCur4c

/-- `exC1` after one synchronization pass. -/
def exC5' : AppState := (sync_all exC1).toOption.getD exC1

/-- Scenario A start: items `"a"`, `"b"` in inventory, no attachments,
`"a"` selected. -/
def exC6 : AppState :=
  { inv := [("a", { symbol := "A", modules := ["m1"] }), ("b", { symbol := "B", modules := [] })],
    attach := [], canvas := [], sel := ["a"], drag := drag0, view := view0, nextId := 1 }

/-- Scenario A after a press on empty canvas at (100,100). -/
def exC6' : AppState := (on_canvas_button_press exC6 cur0 none none false none 100 100).toOption.getD exC6

/-- Scenario E source session: attachments for `"a"` and `"gone"`. -/
def exC7save : AppState :=
  { inv := [("a", { symbol := "A", modules := [] }), ("gone", { symbol := "G", modules := [] })],
    attach := [("a", { bbox := { x0 := 1, y0 := 2, x1 := 3, y1 := 4 }, color := "#112233" }),
               ("gone", { bbox := { x0 := 5, y0 := 6, x1 := 7, y1 := 8 }, color := "#445566" })],
    canvas := [], sel := [], drag := drag0, view := view0, nextId := 1 }

/-- Scenario E target session: the inventory has evolved, `"gone"` is gone. -/
def exC7load : AppState :=
  { inv := [("a", { symbol := "A", modules := [] })],
    attach := [], canvas := [], sel := [], drag := drag0, view := view0, nextId := 1 }

/-- Scenario E result of loading the saved layout into the target session. -/
def exC7' : AppState :=
  (load_attachments exC7load (save_attachments exC7save "L" "W")).toOption.getD exC7load

/-- `exC1` after one rule pass. -/
def exC9' : AppState := (rules_pass exC1).toOption.getD exC1

/-- A view with zoom 3/2, a displaced camera and an odd-sized viewport. -/
def exV4b : ViewState :=
  { view0 with zoom_num := 3, zoom_den := 2, cam_x := 10, cam_y := -7,
               canvas_view_w := 33, canvas_view_h := 21 }

/-- World-space registers with miscellaneous contents. -/
def exCur4b : CurState :=
  { x := 5, y := -9, x0 := 1, y0 := 2, x1 := -3, y1 := 4, coord_type := "w" }

/-- `exCur4b` projected to canvas space under `exV4b`. -/
def exCur4bc : CurState := (project_to exV4b "c" exCur4b).toOption.getD exCur4b

/-- `exCur4bc` projected back to world space. -/
def exCur4bw : CurState := (project_to exV4b "w" exCur4bc).toOption.getD exCur4bc

/-- A reachable selection history: select `"a"`, delete it (guarded toggle),
clear. -/
def exC10ops : List SelOp := [SelOp.set "a", SelOp.deleteToggle "a", SelOp.clear]

/-- The state `exC10ops` reaches from the empty state. -/
def exC10' : AppState := (runSelOps exEmpty exC10ops).toOption.getD exEmpty

/-! ## Generic lemmas about the embedding -/

theorem lookup_nil {α : Type} (k : String) : lookup ([] : List (String × α)) k = none := rfl

theorem lookup_cons {α : Type} (k k' : String) (v : α) (rest : List (String × α)) :
    lookup ((k', v) :: rest) k = if k = k' then some v else lookup rest k := rfl

theorem lookup_insertEntry_self {α : Type} (l : List (String × α)) (k : String) (v : α) :
    lookup (insertEntry l k v) k = some v := by
  induction l with
  | nil => simp [insertEntry, lookup]
  | cons p rest ih =>
    obtain ⟨k', v'⟩ := p
    by_cases h : k = k'
    · simp [insertEntry, lookup, h]
    · simp [insertEntry, lookup, h, ih]

theorem lookup_insertEntry_ne {α : Type} (l : List (String × α)) (k k' : String) (v : α)
    (h : k' ≠ k) : lookup (insertEntry l k v) k' = lookup l k' := by
  induction l with
  | nil => simp [insertEntry, lookup, h]
  | cons p rest ih =>
    obtain ⟨k0, v0⟩ := p
    by_cases h0 : k = k0
    · subst h0; simp [insertEntry, lookup, h]
    · by_cases h1 : k' = k0 <;> simp [insertEntry, lookup, h0, h1, ih]

theorem lookup_eq_none_iff {α : Type} (l : List (String × α)) (k : String) :
    lookup l k = none ↔ k ∉ l.map Prod.fst := by
  induction l with
  | nil => simp [lookup]
  | cons p rest ih =>
    obtain ⟨k0, v0⟩ := p
    by_cases h : k = k0 <;> simp [lookup, h, ih]

theorem insertEntry_of_not_mem {α : Type} (l : List (String × α)) (k : String) (v : α)
    (h : k ∉ l.map Prod.fst) : insertEntry l k v = l ++ [(k, v)] := by
  induction l with
  | nil => simp [insertEntry]
  | cons p rest ih =>
    obtain ⟨k0, v0⟩ := p
    simp only [List.map_cons, List.mem_cons] at h
    push_neg at h
    simp [insertEntry, h.1, ih h.2]

theorem eraseEntry_append_of_not_mem {α : Type} (xs ys : List (String × α)) (k : String)
    (h : k ∉ xs.map Prod.fst) : eraseEntry (xs ++ ys) k = xs ++ eraseEntry ys k := by
  induction xs with
  | nil => simp
  | cons p rest ih =>
    obtain ⟨k0, v0⟩ := p
    simp only [List.map_cons, List.mem_cons] at h
    push_neg at h
    simp [eraseEntry, h.1, ih h.2]

theorem eraseEntry_cons_self {α : Type} (k : String) (v : α) (ys : List (String × α)) :
    eraseEntry ((k, v) :: ys) k = ys := by
  simp [eraseEntry]

/-- What one per-item pass step guarantees about lookups: keys are preserved,
and every surviving value is the image of the old one under the step
function at some allocator state. -/
theorem mapEntriesM_lookup {f : Nat → String → CanvasData → Except String (Nat × CanvasData)}
    {acc acc' : Nat} {es out : List (String × CanvasData)}
    (h : mapEntriesM f acc es = .ok (acc', out)) (id : String) :
    (lookup es id = none ∧ lookup out id = none) ∨
    (∃ D n n' D', lookup es id = some D ∧ lookup out id = some D' ∧ f n id D = .ok (n', D')) := by
  induction es generalizing acc out with
  | nil =>
    simp only [mapEntriesM, Except.ok.injEq, Prod.mk.injEq] at h
    left
    rw [← h.2]
    exact ⟨rfl, rfl⟩
  | cons p rest ih =>
    obtain ⟨k, D⟩ := p
    simp only [mapEntriesM] at h
    cases hf : f acc k D with
    | error e => rw [hf] at h; exact absurd h (by simp)
    | ok v =>
      obtain ⟨a1, D1⟩ := v
      rw [hf] at h
      dsimp only at h
      cases hrest : mapEntriesM f a1 rest with
      | error e => rw [hrest] at h; exact absurd h (by simp)
      | ok w =>
        obtain ⟨a2, out1⟩ := w
        rw [hrest] at h
        simp only [Except.ok.injEq, Prod.mk.injEq] at h
        obtain ⟨h1, h2⟩ := h
        subst h1
        subst h2
        by_cases hid : id = k
        · subst hid
          right
          exact ⟨D, acc, a1, D1, by simp [lookup], by simp [lookup], hf⟩
        · have := ih hrest
          rcases this with ⟨hl, hr⟩ | ⟨D0, n, n', D0', hl, hr, hstep⟩
          · left; simp [lookup, hid, hl, hr]
          · right; exact ⟨D0, n, n', D0', by simp [lookup, hid, hl], by simp [lookup, hid, hr], hstep⟩

/-- `rules_pass` changes only the canvas store. -/
theorem rules_pass_parts {st st' : AppState} (h : rules_pass st = .ok st') :
    st'.inv = st.inv ∧ st'.attach = st.attach ∧ st'.sel = st.sel ∧ st'.drag = st.drag ∧
    st'.view = st.view ∧ st'.nextId = st.nextId := by
  unfold rules_pass at h
  cases hm : mapEntriesM (rules_item_step st.inv st.attach st.sel st.view.module_highlight)
      st.nextId st.canvas with
  | error e => rw [hm] at h; exact absurd h (by simp)
  | ok p =>
    obtain ⟨n, c⟩ := p
    rw [hm] at h
    simp only [Except.ok.injEq] at h
    subst h
    exact ⟨rfl, rfl, rfl, rfl, rfl, rfl⟩

/-- `render_all` changes only the canvas store and the id allocator. -/
theorem render_all_parts {st st' : AppState} (h : render_all st = .ok st') :
    st'.inv = st.inv ∧ st'.attach = st.attach ∧ st'.sel = st.sel ∧ st'.drag = st.drag ∧
    st'.view = st.view := by
  unfold render_all at h
  cases hm : mapEntriesM (render_item st.attach) st.nextId st.canvas with
  | error e => rw [hm] at h; exact absurd h (by simp)
  | ok p =>
    obtain ⟨n, c⟩ := p
    rw [hm] at h
    simp only [Except.ok.injEq] at h
    subst h
    exact ⟨rfl, rfl, rfl, rfl, rfl⟩

/-- `sync_all` changes only the canvas store and the id allocator. -/
theorem sync_all_parts {st st' : AppState} (h : sync_all st = .ok st') :
    st'.inv = st.inv ∧ st'.attach = st.attach ∧ st'.sel = st.sel ∧ st'.drag = st.drag ∧
    st'.view = st.view := by
  unfold sync_all at h
  cases hr : rules_pass st with
  | error e => rw [hr] at h; exact absurd h (by simp)
  | ok st1 =>
    rw [hr] at h
    have p1 := rules_pass_parts hr
    have p2 := render_all_parts h
    exact ⟨p2.1.trans p1.1, p2.2.1.trans p1.2.1, p2.2.2.1.trans p1.2.2.1,
           p2.2.2.2.1.trans p1.2.2.2.1, p2.2.2.2.2.trans p1.2.2.2.2.1⟩

/-- The rules write only model-derived values: the primitive ids and the
rect/label existence flags pass through untouched. -/
theorem apply_rules_item_preserved (i : InventoryItem) (a : Attachment) (sel : List String)
    (hl : Option String) (id : String) (D : CanvasData) :
    (apply_rules_item i a sel hl id D).rect = D.rect ∧
    (apply_rules_item i a sel hl id D).label = D.label ∧
    (apply_rules_item i a sel hl id D).handles = D.handles ∧
    (apply_rules_item i a sel hl id D).rect_shouldexist = D.rect_shouldexist ∧
    (apply_rules_item i a sel hl id D).label_shouldexist = D.label_shouldexist := by
  unfold apply_rules_item rule_handles rule_selected_highlight rule_module_highlight
    rule_default_appearance
  refine ⟨?_, ?_, ?_, ?_, ?_⟩ <;> cases hl <;> dsimp only <;> split_ifs <;> rfl

/-- The handle-existence rule is the last writer of `handles_shouldexist`. -/
theorem apply_rules_item_handles_flag (i : InventoryItem) (a : Attachment) (sel : List String)
    (hl : Option String) (id : String) (D : CanvasData) :
    (apply_rules_item i a sel hl id D).handles_shouldexist = is_only_selectedB sel id := rfl

/-- `is_only_selected()` answers true exactly on the singleton selection. -/
theorem is_only_selectedB_eq_true_iff (sel : List String) (id : String) :
    is_only_selectedB sel id = true ↔ sel = [id] := by
  unfold is_only_selectedB is_selectedB
  constructor
  · intro h
    simp only [Bool.and_eq_true, decide_eq_true_eq] at h
    obtain ⟨hmem, hlen⟩ := h
    match sel, hlen with
    | [x], _ =>
      simp only [List.mem_singleton] at hmem
      subst hmem
      rfl
  · rintro rfl
    simp

/-- Running the four rules a second time on their own output changes
nothing: every field they write is computed from model state alone. -/
theorem apply_rules_item_idem (i : InventoryItem) (a : Attachment) (sel : List String)
    (hl : Option String) (id : String) (D : CanvasData) :
    apply_rules_item i a sel hl id (apply_rules_item i a sel hl id D) =
      apply_rules_item i a sel hl id D := by
  unfold apply_rules_item rule_handles rule_selected_highlight rule_module_highlight
    rule_default_appearance
  cases hl <;> dsimp only <;> split_ifs <;> rfl

/-- Shape of a successful rules step: the allocator passes through and the
output is `apply_rules_item` of the looked-up model data. -/
theorem rules_item_step_ok {inv : List (String × InventoryItem)}
    {attach : List (String × Attachment)} {sel : List String} {hl : Option String}
    {acc : Nat} {id : String} {D : CanvasData} {n : Nat} {D' : CanvasData}
    (h : rules_item_step inv attach sel hl acc id D = .ok (n, D')) :
    n = acc ∧ ∃ i a, lookup attach id = some a ∧ lookup inv id = some i ∧
      D' = apply_rules_item i a sel hl id D := by
  unfold rules_item_step at h
  cases ha : lookup attach id with
  | none => rw [ha] at h; exact absurd h (by simp)
  | some a =>
    rw [ha] at h
    dsimp only at h
    cases hi : lookup inv id with
    | none => rw [hi] at h; exact absurd h (by simp)
    | some i =>
      rw [hi] at h
      simp only [Except.ok.injEq, Prod.mk.injEq] at h
      exact ⟨h.1.symm, i, a, rfl, rfl, h.2.symm⟩

/-- A second rules pass over the output of a first one reproduces it. -/
theorem rules_entries_idem (inv : List (String × InventoryItem))
    (attach : List (String × Attachment)) (sel : List String) (hl : Option String) :
    ∀ (es : List (String × CanvasData)) (acc acc' : Nat) (out : List (String × CanvasData)),
      mapEntriesM (rules_item_step inv attach sel hl) acc es = .ok (acc', out) →
      mapEntriesM (rules_item_step inv attach sel hl) acc out = .ok (acc, out) := by
  intro es
  induction es with
  | nil =>
    intro acc acc' out h
    simp only [mapEntriesM, Except.ok.injEq, Prod.mk.injEq] at h
    rw [← h.2]
    rfl
  | cons p rest ih =>
    intro acc acc' out h
    obtain ⟨k, D⟩ := p
    simp only [mapEntriesM] at h
    cases hf : rules_item_step inv attach sel hl acc k D with
    | error e => rw [hf] at h; exact absurd h (by simp)
    | ok v =>
      obtain ⟨a1, D1⟩ := v
      rw [hf] at h
      dsimp only at h
      cases hrest : mapEntriesM (rules_item_step inv attach sel hl) a1 rest with
      | error e => rw [hrest] at h; exact absurd h (by simp)
      | ok w =>
        obtain ⟨a2, out1⟩ := w
        rw [hrest] at h
        simp only [Except.ok.injEq, Prod.mk.injEq] at h
        obtain ⟨h1, h2⟩ := h
        subst h1
        subst h2
        obtain ⟨hacc, i, a, ha, hi, hD1⟩ := rules_item_step_ok hf
        rw [hacc] at hrest
        have hstep1 : rules_item_step inv attach sel hl acc k D1 = .ok (acc, D1) := by
          unfold rules_item_step
          rw [ha]
          dsimp only
          rw [hi]
          dsimp only
          rw [hD1, apply_rules_item_idem]
        have hrest1 := ih acc a2 out1 hrest
        simp only [mapEntriesM]
        rw [hstep1]
        dsimp only
        rw [hrest1]

/-! ## Claim C1 -/

/-- C1 (code bug): the Delete command on a non-empty selection is specified
to remove each selected entity's attachment and RenderIntent and clear the
selection, but `delete_attachment` begins with `item_id = g["item_id"]`, and
the dict `g` never holds an `"item_id"` key anywhere in the program, so the
very first selected entity raises KeyError before anything is removed. Here
the concrete state has the sole entity `"a"` selected and attached, the case
of Scenario D. -/
theorem C1_delete_raises_keyerror :
    on_delete_key exC1 = .error "KeyError: item_id" := by decide

/-! ## Claim C2 -/

/-- C2 (counterexample): from a state satisfying the exclusivity invariant
(selection `["a"]`, no highlight), `set_module_highlight("m1")` succeeds and
leaves the selection non-empty while the highlight is non-null — the
operation does not clear the selection, so exclusivity is not enforced
inside the mutating operations themselves. -/
theorem C2_counterexample :
    set_module_highlight exC2 (some "m1") = .ok exC2' ∧
    exC2'.sel ≠ [] ∧ exC2'.view.module_highlight ≠ none := by decide

/-- C2 (amended): exclusivity is enforced inside `set_selected` (it clears
the module highlight itself) and trivially holds after `clear_selection`;
`set_module_highlight` does not clear the selection and `toggle_selected`
does not clear the highlight — for those the program relies on its caller,
`on_tree_select`, which runs `clear_selection()` before
`set_module_highlight(module)`, and that composite does re-establish the
invariant. -/
theorem C2_exclusivity_amended :
    (∀ st id st', set_selected st id = .ok st' →
        st'.sel = [id] ∧ st'.view.module_highlight = none) ∧
    (∀ st st', clear_selection st = .ok st' → st'.sel = []) ∧
    (∀ st m st1 st2, clear_selection st = .ok st1 → set_module_highlight st1 m = .ok st2 →
        st2.sel = [] ∧ st2.view.module_highlight = m) := by
  refine ⟨?_, ?_, ?_⟩
  · intro st id st' h
    unfold set_selected at h
    have p := sync_all_parts h
    exact ⟨p.2.2.1, by rw [p.2.2.2.2]⟩
  · intro st st' h
    unfold clear_selection at h
    exact (sync_all_parts h).2.2.1
  · intro st m st1 st2 h1 h2
    unfold clear_selection at h1
    have p1 := sync_all_parts h1
    unfold set_module_highlight at h2
    by_cases hm : m = st1.view.module_highlight
    · rw [if_pos hm] at h2
      simp only [Except.ok.injEq] at h2
      subst h2
      exact ⟨p1.2.2.1, hm.symm⟩
    · rw [if_neg hm] at h2
      have p2 := sync_all_parts h2
      exact ⟨p2.2.2.1.trans p1.2.2.1, by rw [p2.2.2.2.2]⟩

/-- Witness for the amended C2: `set_selected` on a concrete state yields a
singleton selection and a cleared highlight. -/
theorem C2_exclusivity_amended_witness :
    exSetSel.sel = ["a"] ∧ exSetSel.view.module_highlight = none :=
  C2_exclusivity_amended.1 exEmpty "a" exSetSel (by decide)

/-! ## Claim C8 -/

/-- C8: the rule order installed at program start is default-appearance,
module-highlight, selection-highlight, handle-existence, and later rules
overwrite earlier ones on the same RenderIntent field; hence for an entity
that is selected while its module is highlighted, the final outline is the
selection highlight's yellow, width 3. -/
theorem C8_selection_wins (i : InventoryItem) (a : Attachment) (sel : List String)
    (m id : String) (D : CanvasData) (hsel : id ∈ sel) (_hmod : m ∈ i.modules) :
    (apply_rules_item i a sel (some m) id D).rect_outline = "yellow" ∧
    (apply_rules_item i a sel (some m) id D).rect_width = 3 := by
  have hs : is_selectedB sel id = true := by simp [is_selectedB, hsel]
  simp [apply_rules_item, rule_handles, rule_selected_highlight, rule_module_highlight,
        rule_default_appearance, hs]

/-- Witness for C8 at a concrete selected, module-highlighted entity. -/
theorem C8_selection_wins_witness :
    (apply_rules_item { symbol := "A", modules := ["m1"] }
        { bbox := { x0 := 0, y0 := 0, x1 := 40, y1 := 40 }, color := "#88ccff" }
        ["a"] (some "m1") "a" exCanvasA).rect_outline = "yellow" ∧
    (apply_rules_item { symbol := "A", modules := ["m1"] }
        { bbox := { x0 := 0, y0 := 0, x1 := 40, y1 := 40 }, color := "#88ccff" }
        ["a"] (some "m1") "a" exCanvasA).rect_width = 3 :=
  C8_selection_wins { symbol := "A", modules := ["m1"] }
    { bbox := { x0 := 0, y0 := 0, x1 := 40, y1 := 40 }, color := "#88ccff" }
    ["a"] "m1" "a" exCanvasA (by decide) (by decide)

/-! ## Claim C9 -/

/-- C9: the rule pipeline is idempotent — with no intervening model
mutation, running the full ordered rule list a second time over each entity
reproduces the first run's RenderIntent exactly. -/
theorem C9_rules_idempotent (st st' : AppState) (h : rules_pass st = .ok st') :
    rules_pass st' = .ok st' := by
  unfold rules_pass at h ⊢
  cases hm : mapEntriesM (rules_item_step st.inv st.attach st.sel st.view.module_highlight)
      st.nextId st.canvas with
  | error e => rw [hm] at h; exact absurd h (by simp)
  | ok p =>
    obtain ⟨n, c⟩ := p
    rw [hm] at h
    simp only [Except.ok.injEq] at h
    subst h
    have hidem := rules_entries_idem st.inv st.attach st.sel st.view.module_highlight
      st.canvas st.nextId n c hm
    dsimp only
    rw [hidem]

/-- Witness for C9: a second rule pass over `exC9'` (the output of a first
pass on a concrete state) reproduces it. -/
theorem C9_rules_idempotent_witness : rules_pass exC9' = .ok exC9' :=
  C9_rules_idempotent exC1 exC9' (by decide)

/-! ## Claim C4 -/

/-- Per-axis round-trip bound: with positive rational zoom and
`zoom_den ≤ zoom_num + 1`, projecting world→canvas→world moves a coordinate
by at most 1. -/
theorem roundtrip_axis_bound (cam zn zd vc x : Int) (hn : 0 < zn) (hd : 0 < zd)
    (hb : zd ≤ zn + 1) :
    |x - unprojAxis cam zn zd vc (projAxis cam zn zd vc x)| ≤ 1 := by
  unfold projAxis unprojAxis
  rw [Int.fdiv_eq_ediv _ (le_of_lt hd), Int.fdiv_eq_ediv _ (le_of_lt hn)]
  have h1 : (x - cam) * zn / zd + vc - vc = (x - cam) * zn / zd := by ring
  rw [h1]
  set a := x - cam with ha
  set q := a * zn / zd with hq
  set r := a * zn % zd with hr
  have hdm := Int.ediv_add_emod (a * zn) zd
  rw [← hq, ← hr] at hdm
  have hr0 : 0 ≤ r := Int.emod_nonneg _ (ne_of_gt hd)
  have hr1 : r < zd := Int.emod_lt_of_pos _ hd
  have h2 : q * zd = -r + a * zn := by rw [mul_comm]; omega
  rw [h2, Int.add_mul_ediv_right (-r) a (ne_of_gt hn)]
  have hu1 : -1 ≤ -r / zn := (Int.le_ediv_iff_mul_le hn).mpr (by omega)
  have hu2 : -r / zn < 1 := (Int.ediv_lt_iff_lt_mul hn).mpr (by omega)
  have h3 : x - (-r / zn + a + cam) = -(-r / zn) := by rw [ha]; ring
  rw [h3, abs_le]
  omega

/-- Per-axis round trip at zoom 1/1 is the identity. -/
theorem roundtrip_axis_exact (cam vc x : Int) :
    unprojAxis cam 1 1 vc (projAxis cam 1 1 vc x) = x := by
  unfold projAxis unprojAxis
  simp [Int.fdiv_one]

/-- `project_to "c"` on world-space registers applies `w_to_c` to every
register and tags the result canvas-space. -/
theorem project_to_w_c (v : ViewState) (cur : CurState) (h : cur.coord_type = "w") :
    project_to v "c" cur =
      .ok { x := wToCx v cur.x, y := wToCy v cur.y, x0 := wToCx v cur.x0,
            y0 := wToCy v cur.y0, x1 := wToCx v cur.x1, y1 := wToCy v cur.y1,
            coord_type := "c" } := by
  unfold project_to
  rw [h]
  rw [if_neg (by decide : ¬("w" : String) = "c")]
  rw [if_pos (⟨rfl, rfl⟩ : ("w" : String) = "w" ∧ ("c" : String) = "c")]

/-- `project_to "w"` on canvas-space registers applies `c_to_w` to every
register and tags the result world-space. -/
theorem project_to_c_w (v : ViewState) (cur : CurState) (h : cur.coord_type = "c") :
    project_to v "w" cur =
      .ok { x := cToWx v cur.x, y := cToWy v cur.y, x0 := cToWx v cur.x0,
            y0 := cToWy v cur.y0, x1 := cToWx v cur.x1, y1 := cToWy v cur.y1,
            coord_type := "w" } := by
  unfold project_to
  rw [h]
  rw [if_neg (by decide : ¬("c" : String) = "w")]
  rw [if_neg (by decide : ¬(("c" : String) = "w" ∧ ("w" : String) = "c"))]
  rw [if_pos (⟨rfl, rfl⟩ : ("c" : String) = "c" ∧ ("w" : String) = "w")]

/-- x-axis composite round trip at zoom 1/1 is the identity. -/
theorem cToWx_wToCx_exact (v : ViewState) (hzn : v.zoom_num = 1) (hzd : v.zoom_den = 1)
    (x : Int) : cToWx v (wToCx v x) = x := by
  unfold cToWx wToCx
  rw [hzn, hzd]
  exact roundtrip_axis_exact v.cam_x (vcx v) x

/-- y-axis composite round trip at zoom 1/1 is the identity. -/
theorem cToWy_wToCy_exact (v : ViewState) (hzn : v.zoom_num = 1) (hzd : v.zoom_den = 1)
    (y : Int) : cToWy v (wToCy v y) = y := by
  unfold cToWy wToCy
  rw [hzn, hzd]
  exact roundtrip_axis_exact v.cam_y (vcy v) y

/-- x-axis composite round-trip bound. -/
theorem cToWx_wToCx_bound (v : ViewState) (hn : 0 < v.zoom_num) (hd : 0 < v.zoom_den)
    (hb : v.zoom_den ≤ v.zoom_num + 1) (x : Int) : |x - cToWx v (wToCx v x)| ≤ 1 := by
  unfold cToWx wToCx
  exact roundtrip_axis_bound v.cam_x v.zoom_num v.zoom_den (vcx v) x hn hd hb

/-- y-axis composite round-trip bound. -/
theorem cToWy_wToCy_bound (v : ViewState) (hn : 0 < v.zoom_num) (hd : 0 < v.zoom_den)
    (hb : v.zoom_den ≤ v.zoom_num + 1) (y : Int) : |y - cToWy v (wToCy v y)| ≤ 1 := by
  unfold cToWy wToCy
  exact roundtrip_axis_bound v.cam_y v.zoom_num v.zoom_den (vcy v) y hn hd hb

/-- C4 (counterexample): at camera (0,0), viewport (0,0) and zoom 1/5, the
world point (4,4) projects to canvas (0,0) and back to world (0,0): the
per-axis round-trip error is 4, refuting the claimed bound of 1 for every
positive rational zoom. -/
theorem C4_counterexample :
    project_to exV4 "c" exCur4 = .ok exCur4c ∧
    project_to exV4 "w" exCur4c = .ok exCur4w ∧
    exCur4.x - exCur4w.x = 4 ∧ ¬(|exCur4.x - exCur4w.x| ≤ 1) := by decide

/-- C4 (amended): with camera (0,0) and zoom 1/1 the `project_to "c"` then
`project_to "w"` round trip returns every register exactly; for a positive
rational zoom the per-axis error is at most 1 whenever
`zoom_den ≤ zoom_num + 1` (so at every zoom-in level); zoomed further out
the error can exceed 1 — it reaches 4 at zoom 1/5 (see the
counterexample). -/
theorem C4_projection_roundtrip :
    (∀ (v : ViewState) (cur cur1 cur2 : CurState),
        v.cam_x = 0 → v.cam_y = 0 → v.zoom_num = 1 → v.zoom_den = 1 →
        cur.coord_type = "w" →
        project_to v "c" cur = .ok cur1 → project_to v "w" cur1 = .ok cur2 →
        cur2 = cur) ∧
    (∀ (v : ViewState) (cur cur1 cur2 : CurState),
        0 < v.zoom_num → 0 < v.zoom_den → v.zoom_den ≤ v.zoom_num + 1 →
        cur.coord_type = "w" →
        project_to v "c" cur = .ok cur1 → project_to v "w" cur1 = .ok cur2 →
        |cur.x - cur2.x| ≤ 1 ∧ |cur.y - cur2.y| ≤ 1 ∧
        |cur.x0 - cur2.x0| ≤ 1 ∧ |cur.y0 - cur2.y0| ≤ 1 ∧
        |cur.x1 - cur2.x1| ≤ 1 ∧ |cur.y1 - cur2.y1| ≤ 1) := by
  constructor
  · intro v cur cur1 cur2 _hcx _hcy hzn hzd hct h1 h2
    rw [project_to_w_c v cur hct] at h1
    simp only [Except.ok.injEq] at h1
    subst h1
    rw [project_to_c_w v _ rfl] at h2
    simp only [Except.ok.injEq] at h2
    subst h2
    obtain ⟨cx, cy, cx0, cy0, cx1, cy1, ct⟩ := cur
    dsimp only at hct ⊢
    subst hct
    simp only [CurState.mk.injEq]
    exact ⟨cToWx_wToCx_exact v hzn hzd cx, cToWy_wToCy_exact v hzn hzd cy,
           cToWx_wToCx_exact v hzn hzd cx0, cToWy_wToCy_exact v hzn hzd cy0,
           cToWx_wToCx_exact v hzn hzd cx1, cToWy_wToCy_exact v hzn hzd cy1, trivial⟩
  · intro v cur cur1 cur2 hn hd hb hct h1 h2
    rw [project_to_w_c v cur hct] at h1
    simp only [Except.ok.injEq] at h1
    subst h1
    rw [project_to_c_w v _ rfl] at h2
    simp only [Except.ok.injEq] at h2
    subst h2
    exact ⟨cToWx_wToCx_bound v hn hd hb cur.x, cToWy_wToCy_bound v hn hd hb cur.y,
           cToWx_wToCx_bound v hn hd hb cur.x0, cToWy_wToCy_bound v hn hd hb cur.y0,
           cToWx_wToCx_bound v hn hd hb cur.x1, cToWy_wToCy_bound v hn hd hb cur.y1⟩

/-- Witness for the amended C4 at zoom 3/2 with a displaced camera and an
odd viewport. -/
theorem C4_projection_roundtrip_witness :
    |exCur4b.x - exCur4bw.x| ≤ 1 ∧ |exCur4b.y - exCur4bw.y| ≤ 1 ∧
    |exCur4b.x0 - exCur4bw.x0| ≤ 1 ∧ |exCur4b.y0 - exCur4bw.y0| ≤ 1 ∧
    |exCur4b.x1 - exCur4bw.x1| ≤ 1 ∧ |exCur4b.y1 - exCur4bw.y1| ≤ 1 :=
  C4_projection_roundtrip.2 exV4b exCur4b exCur4bc exCur4bw
    (by decide) (by decide) (by decide) (by decide) (by decide) (by decide)

/-! ## Claim C10 -/

/-- One reachable selection mutation keeps the selection at most a
singleton. -/
theorem applySelOp_length {st st' : AppState} {op : SelOp} (h : applySelOp st op = .ok st')
    (hle : st.sel.length ≤ 1) : st'.sel.length ≤ 1 := by
  cases op with
  | set id =>
    unfold applySelOp set_selected at h
    have p := sync_all_parts h
    rw [p.2.2.1]
    exact le_refl 1
  | clear =>
    unfold applySelOp clear_selection at h
    have p := sync_all_parts h
    rw [p.2.2.1]
    exact Nat.zero_le 1
  | deleteToggle id =>
    unfold applySelOp at h
    dsimp only at h
    cases hm : is_selectedB st.sel id with
    | false => rw [hm] at h; simp only [Bool.false_eq_true, if_false, Except.ok.injEq] at h;
               subst h; exact hle
    | true =>
      rw [hm] at h
      simp only [if_true] at h
      unfold toggle_selected at h
      have p := sync_all_parts h
      have hmem : id ∈ st.sel := by simpa [is_selectedB] using hm
      rw [p.2.2.1]
      dsimp only
      rw [if_pos hmem]
      exact le_trans (List.Sublist.length_le (List.erase_sublist id st.sel)) hle

/-- C10: starting from any at-most-singleton selection (the program starts
empty), every sequence of selection mutations the program can actually
issue — `set_selected`, `clear_selection`, and `toggle_selected` guarded by
`is_selected()` at its only call site in `delete_attachment` — keeps the
selection at size at most 1, so "unique selection" coincides with
"non-empty selection". -/
theorem C10_selection_at_most_one (ops : List SelOp) (st0 st' : AppState)
    (h0 : st0.sel.length ≤ 1) (h : runSelOps st0 ops = .ok st') :
    st'.sel.length ≤ 1 ∧ (st'.sel ≠ [] ↔ st'.sel.length = 1) := by
  have hle : st'.sel.length ≤ 1 := by
    induction ops generalizing st0 with
    | nil =>
      simp only [runSelOps, Except.ok.injEq] at h
      subst h
      exact h0
    | cons op ops ih =>
      simp only [runSelOps] at h
      cases ha : applySelOp st0 op with
      | error e => rw [ha] at h; exact absurd h (by simp)
      | ok st1 => rw [ha] at h; exact ih st1 (applySelOp_length ha h0) h
  refine ⟨hle, ?_, ?_⟩
  · intro hne
    have hpos : 0 < st'.sel.length := List.length_pos.mpr hne
    omega
  · intro h1 hc
    rw [hc] at h1
    simp at h1

/-- Witness for C10: select `"a"`, delete it, clear — the final selection is
empty, hence at most a singleton. -/
theorem C10_selection_at_most_one_witness :
    exC10'.sel.length ≤ 1 ∧ (exC10'.sel ≠ [] ↔ exC10'.sel.length = 1) :=
  C10_selection_at_most_one exC10ops exEmpty exC10' (by decide) (by decide)

/-! ## Claim C3 -/

/-- A body drag (no active handle) translates the attachment bbox by exactly
the raw pointer delta, in world units, whatever the camera and zoom are. -/
theorem apply_drag_body (st : AppState) (cur : CurState) (item_id : String) (dx dy : Int)
    (a : Attachment) (hh : st.drag.handle = none) (ha : lookup st.attach item_id = some a) :
    apply_drag st cur item_id dx dy =
      .ok ({ st with attach := insertEntry st.attach item_id (translateAttachment a dx dy) },
           { cur with x0 := a.bbox.x0 + dx, y0 := a.bbox.y0 + dy,
                      x1 := a.bbox.x1 + dx, y1 := a.bbox.y1 + dy, coord_type := "w" }) := by
  unfold apply_drag load_rect_attachment store_rect_attachment
  rw [ha, hh]
  rfl

/-- C3 (counterexample): at zoom 2/1 a body drag with pointer delta (1,1)
translates the bbox by a whole world unit: the raw screen delta is applied
directly to world coordinates without projection through the transform
engine. The rect's screen position therefore moves 2 pixels for a 1-pixel
pointer move (and the pointer's own projected world motion is 0), so the
drag is not correct at every camera position and zoom. -/
theorem C3_counterexample :
    on_canvas_motion exC3 cur0 1 1 = .ok exC3' ∧
    lookup exC3'.attach "a" =
      some { bbox := { x0 := 1, y0 := 1, x1 := 51, y1 := 51 }, color := "#88ccff" } ∧
    wToCx exC3.view 1 - wToCx exC3.view 0 = 2 ∧
    cToWx exC3.view 1 - cToWx exC3.view 0 = 0 ∧ (2 : Int) ≠ 1 := by decide

/-- C3 (amended): motion while dragging an item body translates the
attachment bbox by the raw pointer delta — screen-space numbers added
directly to world coordinates, with no projection through the coordinate
transform engine (so the translation is pointer-accurate only at zoom 1/1).
Scenario B holds as stated: from bbox (0,0,40,40), dragging the `"se"`
handle by (+10,+10) gives (0,0,50,50), then dragging the body by (+5,+5)
gives (5,5,55,55). -/
theorem C3_drag_raw_delta :
    (on_canvas_motion exB1 cur0 10 10 = .ok exB2 ∧
     lookup exB2.attach "a" =
       some { bbox := { x0 := 0, y0 := 0, x1 := 50, y1 := 50 }, color := "#88ccff" } ∧
     on_canvas_motion exB3 cur0 5 5 = .ok exB4 ∧
     lookup exB4.attach "a" =
       some { bbox := { x0 := 5, y0 := 5, x1 := 55, y1 := 55 }, color := "#88ccff" }) ∧
    (∀ (st : AppState) (cur : CurState) (item_id : String) (dx dy : Int) (a : Attachment),
       st.drag.handle = none → lookup st.attach item_id = some a →
       apply_drag st cur item_id dx dy =
         .ok ({ st with attach := insertEntry st.attach item_id (translateAttachment a dx dy) },
              { cur with x0 := a.bbox.x0 + dx, y0 := a.bbox.y0 + dy,
                         x1 := a.bbox.x1 + dx, y1 := a.bbox.y1 + dy,
                         coord_type := "w" })) := by
  constructor
  · refine ⟨by decide, by decide, by decide, by decide⟩
  · intro st cur item_id dx dy a hh ha
    exact apply_drag_body st cur item_id dx dy a hh ha

/-- Witness for the amended C3: the raw-delta translation applied at the
Scenario-B body-drag state. -/
theorem C3_drag_raw_delta_witness :
    apply_drag exB3 cur0 "a" 5 5 =
      .ok ({ exB3 with attach := insertEntry exB3.attach "a" (translateAttachment
               { bbox := { x0 := 0, y0 := 0, x1 := 50, y1 := 50 }, color := "#88ccff" } 5 5) },
           { cur0 with x0 := 5, y0 := 5, x1 := 55, y1 := 55, coord_type := "w" }) :=
  C3_drag_raw_delta.2 exB3 cur0 "a" 5 5
    { bbox := { x0 := 0, y0 := 0, x1 := 50, y1 := 50 }, color := "#88ccff" }
    (by decide) (by decide)

/-! ## Claim C6 -/

/-- C6: a button press on empty canvas (no primitive under the pointer),
while the selection is exactly `[e]` and `e` has no attachment yet, creates a
default-size (40×40) attachment for `e` whose bbox is centered on the press
position projected to world space, runs a synchronization pass (the
successful `sync_all` inside the handler), keeps the selection equal to
`[e]`, and leaves the drag state untouched (the interaction stays idle). -/
theorem C6_press_creates_attachment (st st' : AppState) (cur : CurState) (e : String)
    (topItemId : Option String) (tih : Bool) (tc : Option String) (evx evy : Int)
    (hsel : st.sel = [e]) (hne : e ≠ "") (hnoc : lookup st.canvas e = none)
    (h : on_canvas_button_press st cur none topItemId tih tc evx evy = .ok st') :
    lookup st'.attach e = some
      { bbox := { x0 := cToWx st.view evx - 20, y0 := cToWy st.view evy - 20,
                  x1 := cToWx st.view evx + 20, y1 := cToWy st.view evy + 20 },
        color := "#88ccff" } ∧
    (cToWx st.view evx - 20) + (cToWx st.view evx + 20) = 2 * cToWx st.view evx ∧
    (cToWy st.view evy - 20) + (cToWy st.view evy + 20) = 2 * cToWy st.view evy ∧
    (cToWx st.view evx + 20) - (cToWx st.view evx - 20) = 40 ∧
    st'.sel = [e] ∧ st'.drag = st.drag := by
  have hos : only_selected st.sel = some e := by
    rw [hsel]
    rfl
  have hguard : (!pyTruthyNat (none : Option Nat) && pyTruthyStr (only_selected st.sel) &&
      (match only_selected st.sel with
       | some i => !(lookup st.canvas i).isSome
       | none => true)) = true := by
    rw [hos]
    simp [pyTruthyNat, pyTruthyStr, hne, hnoc]
  unfold on_canvas_button_press at h
  rw [if_pos hguard] at h
  unfold attach_new_square at h
  rw [hos] at h
  dsimp only [load_pt_event] at h
  rw [project_to_c_w st.view _ rfl] at h
  dsimp only [explode_pt] at h
  cases hinv : lookup st.inv e with
  | none => rw [hinv] at h; exact absurd h (by simp)
  | some invItem =>
    rw [hinv] at h
    dsimp only at h
    have parts := sync_all_parts h
    have h20 : (40 : Int).fdiv 2 = 20 := by decide
    rw [h20] at parts
    refine ⟨?_, by ring, by ring, by ring, ?_, ?_⟩
    · rw [parts.2.1]
      exact lookup_insertEntry_self st.attach e _
    · rw [parts.2.2.1, hsel]
    · rw [parts.2.2.2.1]

/-- Witness for C6, Scenario A: with items `"a"`, `"b"`, no attachments and
`"a"` selected, a press at (100,100) (camera (0,0), zoom 1/1, viewport
(0,0)) creates the attachment with bbox centered at world (100,100). -/
theorem C6_press_creates_attachment_witness :
    lookup exC6'.attach "a" = some
      { bbox := { x0 := cToWx exC6.view 100 - 20, y0 := cToWy exC6.view 100 - 20,
                  x1 := cToWx exC6.view 100 + 20, y1 := cToWy exC6.view 100 + 20 },
        color := "#88ccff" } ∧
    (cToWx exC6.view 100 - 20) + (cToWx exC6.view 100 + 20) = 2 * cToWx exC6.view 100 ∧
    (cToWy exC6.view 100 - 20) + (cToWy exC6.view 100 + 20) = 2 * cToWy exC6.view 100 ∧
    (cToWx exC6.view 100 + 20) - (cToWx exC6.view 100 - 20) = 40 ∧
    exC6'.sel = ["a"] ∧ exC6'.drag = exC6.drag :=
  C6_press_creates_attachment exC6 exC6' cur0 "a" none false none 100 100
    (by decide) (by decide) (by decide) (by decide)

/-! ## Claim C5 -/

/-- What `render_all` does to the handle group of one entity whose
attachment exists: create the 4 handles when the flag is set and none are
stored, keep them when stored, clear them when the flag is unset. -/
theorem render_item_handles {attach : List (String × Attachment)} {acc : Nat} {id : String}
    {D : CanvasData} {acc' : Nat} {D' : CanvasData} (a : Attachment)
    (hat : lookup attach id = some a)
    (h : render_item attach acc id D = .ok (acc', D')) :
    (D.handles_shouldexist = true → D.handles = [] → ∃ n, D'.handles = [n, n + 1, n + 2, n + 3]) ∧
    (D.handles_shouldexist = true → D.handles ≠ [] → D'.handles = D.handles) ∧
    (D.handles_shouldexist = false → D'.handles = []) := by
  unfold render_item at h
  rw [hat] at h
  simp only [Option.isNone_some, Bool.false_eq_true, and_false, if_false] at h
  simp only [Except.ok.injEq, Prod.mk.injEq] at h
  obtain ⟨-, hD'⟩ := h
  subst hD'
  cases hse : D.handles_shouldexist with
  | false => simp [hse]
  | true =>
    cases hD : D.handles with
    | nil => simp [hse, hD]
    | cons h0 hs => simp [hse, hD]

/-- C5: after a successful synchronization pass (from a state whose handle
groups are well-formed — empty or of size 4, the only sizes the renderer
ever produces — and whose canvas store and attachment store cover the same
ids, the lifecycle invariant), corner handles exist for entity `E` iff the
selection is exactly `[E]` and `E` has an attachment; the handle-existence
rule sets `handles_shouldexist` true exactly on the singleton selection, and
the renderer keeps handle groups at exactly 0 or 4 primitives. -/
theorem C5_handle_visibility (st st' : AppState) (h : sync_all st = .ok st')
    (hlen : ∀ id D, lookup st.canvas id = some D → D.handles.length = 0 ∨ D.handles.length = 4)
    (hdom : ∀ id, (lookup st.canvas id).isSome = (lookup st.attach id).isSome) :
    (∀ (i : InventoryItem) (a : Attachment) (sel : List String) (hl : Option String)
        (id : String) (D : CanvasData),
        ((apply_rules_item i a sel hl id D).handles_shouldexist = true ↔ sel = [id])) ∧
    (∀ id, (∃ D, lookup st'.canvas id = some D ∧ D.handles ≠ []) ↔
        (st'.sel = [id] ∧ (lookup st'.attach id).isSome = true)) ∧
    (∀ id D, lookup st'.canvas id = some D → D.handles.length = 0 ∨ D.handles.length = 4) := by
  unfold sync_all at h
  cases hr : rules_pass st with
  | error e => rw [hr] at h; exact absurd h (by simp)
  | ok st1 =>
    rw [hr] at h
    unfold rules_pass at hr
    cases hm : mapEntriesM (rules_item_step st.inv st.attach st.sel st.view.module_highlight)
        st.nextId st.canvas with
    | error e => rw [hm] at hr; exact absurd hr (by simp)
    | ok p =>
      obtain ⟨n1, c1⟩ := p
      rw [hm] at hr
      simp only [Except.ok.injEq] at hr
      subst hr
      unfold render_all at h
      dsimp only at h
      cases hm2 : mapEntriesM (render_item st.attach) st.nextId c1 with
      | error e => rw [hm2] at h; exact absurd h (by simp)
      | ok q =>
        obtain ⟨n2, c2⟩ := q
        rw [hm2] at h
        simp only [Except.ok.injEq] at h
        subst h
        dsimp only
        refine ⟨?_, ?_, ?_⟩
        · intro i a sel hl id D
          rw [apply_rules_item_handles_flag]
          exact is_only_selectedB_eq_true_iff sel id
        · intro id
          rcases mapEntriesM_lookup hm id with ⟨ha1, ha2⟩ | ⟨D, n, n', D1, hs1, hs2, hstep⟩
          · rcases mapEntriesM_lookup hm2 id with ⟨hb1, hb2⟩ | ⟨E, m, m', E1, ht1, ht2, htep⟩
            · constructor
              · rintro ⟨D2, hD2, -⟩
                rw [hb2] at hD2
                exact absurd hD2 (by simp)
              · rintro ⟨hsel', hatt⟩
                have hd := hdom id
                rw [ha1, hatt] at hd
                exact absurd hd (by simp)
            · rw [ha2] at ht1
              exact absurd ht1 (by simp)
          · obtain ⟨-, i, a, hati, hinvi, hD1⟩ := rules_item_step_ok hstep
            rcases mapEntriesM_lookup hm2 id with ⟨hb1, hb2⟩ | ⟨E, m, m', E1, ht1, ht2, htep⟩
            · rw [hs2] at hb1
              exact absurd hb1 (by simp)
            · rw [hs2] at ht1
              have hE : E = D1 := by injection ht1 with hE; exact hE.symm
              subst hE
              have hrend := render_item_handles a hati htep
              have hflag : E.handles_shouldexist = is_only_selectedB st.sel id := by
                rw [hD1]
                exact apply_rules_item_handles_flag i a st.sel st.view.module_highlight id D
              have hpres : E.handles = D.handles := by
                rw [hD1]
                exact (apply_rules_item_preserved i a st.sel st.view.module_highlight id D).2.2.1
              by_cases hone : st.sel = [id]
              · have hfl : E.handles_shouldexist = true := by
                  rw [hflag]
                  exact (is_only_selectedB_eq_true_iff _ _).mpr hone
                constructor
                · intro _
                  refine ⟨hone, ?_⟩
                  rw [hati]
                  rfl
                · intro _
                  refine ⟨E1, ht2, ?_⟩
                  cases hDh : D.handles with
                  | nil =>
                    obtain ⟨nb, hb⟩ := hrend.1 hfl (hpres.trans hDh)
                    rw [hb]
                    simp
                  | cons x xs =>
                    have hkeep := hrend.2.1 hfl (by rw [hpres, hDh]; simp)
                    rw [hkeep, hpres, hDh]
                    simp
              · have hfl : E.handles_shouldexist = false := by
                  rw [hflag]
                  cases hio : is_only_selectedB st.sel id with
                  | false => rfl
                  | true => exact absurd ((is_only_selectedB_eq_true_iff _ _).mp hio) hone
                have hE1 : E1.handles = [] := hrend.2.2 hfl
                constructor
                · rintro ⟨D2, hD2, hne⟩
                  rw [ht2] at hD2
                  have : D2 = E1 := by injection hD2 with hx; exact hx.symm
                  subst this
                  exact absurd hE1 hne
                · rintro ⟨hsel', -⟩
                  exact absurd hsel' hone
        · intro id D2 hD2
          rcases mapEntriesM_lookup hm id with ⟨ha1, ha2⟩ | ⟨D, n, n', D1, hs1, hs2, hstep⟩
          · rcases mapEntriesM_lookup hm2 id with ⟨hb1, hb2⟩ | ⟨E, m, m', E1, ht1, ht2, htep⟩
            · rw [hb2] at hD2
              exact absurd hD2 (by simp)
            · rw [ha2] at ht1
              exact absurd ht1 (by simp)
          · obtain ⟨-, i, a, hati, hinvi, hD1⟩ := rules_item_step_ok hstep
            rcases mapEntriesM_lookup hm2 id with ⟨hb1, hb2⟩ | ⟨E, m, m', E1, ht1, ht2, htep⟩
            · rw [hs2] at hb1
              exact absurd hb1 (by simp)
            · rw [hs2] at ht1
              have hE : E = D1 := by injection ht1 with hE; exact hE.symm
              subst hE
              rw [ht2] at hD2
              have hD2E : D2 = E1 := by injection hD2 with hx; exact hx.symm
              subst hD2E
              have hrend := render_item_handles a hati htep
              have hpres : E.handles = D.handles := by
                rw [hD1]
                exact (apply_rules_item_preserved i a st.sel st.view.module_highlight id D).2.2.1
              cases hfl : E.handles_shouldexist with
              | false =>
                left
                rw [hrend.2.2 hfl]
                rfl
              | true =>
                cases hDh : D.handles with
                | nil =>
                  obtain ⟨nb, hb⟩ := hrend.1 hfl (hpres.trans hDh)
                  right
                  rw [hb]
                  rfl
                | cons x xs =>
                  have hkeep := hrend.2.1 hfl (by rw [hpres, hDh]; simp)
                  rw [hkeep, hpres]
                  exact hlen id D hs1

/-- Witness for C5 at the concrete selected, attached entity `"a"` after one
synchronization pass. -/
theorem C5_handle_visibility_witness :
    (∃ D, lookup exC5'.canvas "a" = some D ∧ D.handles ≠ []) ↔
      (exC5'.sel = ["a"] ∧ (lookup exC5'.attach "a").isSome = true) :=
  (C5_handle_visibility exC1 exC5' (by decide)
    (by
      intro id D hD
      by_cases hid : id = "a"
      · subst hid
        have hca : lookup exC1.canvas "a" = some exCanvasA := by decide
        rw [hca] at hD
        have hDe : D = exCanvasA := by injection hD with hx; exact hx.symm
        subst hDe
        left
        decide
      · have hnone : lookup exC1.canvas id = none := by
          simp [exC1, lookup, hid]
        rw [hnone] at hD
        exact absurd hD (by simp))
    (by
      intro id
      by_cases hid : id = "a" <;> simp [exC1, lookup, hid])).2.1 "a"

/-! ## Claim C7 -/

/-- Mapping an attachment through the save format keeps its key. -/
theorem map_fst_map_saved (l : List (String × Attachment)) :
    (l.map (fun p => (p.1, savedOfAttachment p.2))).map Prod.fst = l.map Prod.fst := by
  induction l with
  | nil => rfl
  | cons p rest ih => simp [ih]

/-- `save_attachments`' dump loop over distinct keys is a plain map:
inserting each entry into the fresh dict appends it. -/
theorem foldl_insertEntry_eq_append (l : List (String × Attachment)) :
    ∀ d : List (String × SavedValue),
      (l.map Prod.fst).Nodup →
      (∀ k, k ∈ l.map Prod.fst → k ∉ d.map Prod.fst) →
      l.foldl (fun d p => insertEntry d p.1 (savedOfAttachment p.2)) d
        = d ++ l.map (fun p => (p.1, savedOfAttachment p.2)) := by
  induction l with
  | nil => intro d _ _; simp
  | cons p rest ih =>
    intro d hnd hdisj
    obtain ⟨k, a⟩ := p
    simp only [List.foldl_cons]
    have hnd0 : (k :: rest.map Prod.fst).Nodup := by simpa using hnd
    obtain ⟨hknotin, hnd'⟩ := List.nodup_cons.mp hnd0
    have hk : k ∉ d.map Prod.fst := hdisj k (by simp)
    rw [insertEntry_of_not_mem d k (savedOfAttachment a) hk]
    have hdisj' : ∀ k', k' ∈ rest.map Prod.fst →
        k' ∉ (d ++ [(k, savedOfAttachment a)]).map Prod.fst := by
      intro k' hk' hmem
      simp only [List.map_append, List.mem_append] at hmem
      rcases hmem with hm | hm
      · exact hdisj k' (by simp [hk']) hm
      · simp at hm
        subst hm
        exact hknotin hk'
    rw [ih (d ++ [(k, savedOfAttachment a)]) hnd' hdisj']
    simp

/-- Popping the two reserved keys off a saved layout recovers exactly the
per-attachment entries, in order. -/
theorem save_attachments_erased (st : AppState) (lp wp : String)
    (hnd : (st.attach.map Prod.fst).Nodup)
    (hr1 : lookup st.attach "_layout" = none) (hr2 : lookup st.attach "_window" = none) :
    eraseEntry (eraseEntry (save_attachments st lp wp) "_layout") "_window"
      = st.attach.map (fun p => (p.1, savedOfAttachment p.2)) := by
  unfold save_attachments
  have hfold := foldl_insertEntry_eq_append st.attach [] hnd (by simp)
  rw [hfold]
  simp only [List.nil_append]
  set M := st.attach.map (fun p => (p.1, savedOfAttachment p.2)) with hM
  have hkeys : M.map Prod.fst = st.attach.map Prod.fst := map_fst_map_saved st.attach
  have hL : "_layout" ∉ M.map Prod.fst := by
    rw [hkeys]
    exact (lookup_eq_none_iff st.attach "_layout").mp hr1
  have hW : "_window" ∉ M.map Prod.fst := by
    rw [hkeys]
    exact (lookup_eq_none_iff st.attach "_window").mp hr2
  rw [insertEntry_of_not_mem M "_layout" (SavedValue.blob lp) hL]
  have hW2 : "_window" ∉ (M ++ [("_layout", SavedValue.blob lp)]).map Prod.fst := by
    simp only [List.map_append, List.mem_append]
    rintro (hm | hm)
    · exact hW hm
    · simp at hm
  rw [insertEntry_of_not_mem _ "_window" (SavedValue.blob wp) hW2]
  rw [List.append_assoc]
  rw [eraseEntry_append_of_not_mem M _ "_layout" hL]
  simp only [List.singleton_append, eraseEntry_cons_self]
  rw [eraseEntry_append_of_not_mem M _ "_window" hW]
  rw [eraseEntry_cons_self]
  simp

/-- What the rebuild loop of `load_attachments` does to the attachment
store when fed saved attachment entries with distinct keys: ids present in
the inventory come back exactly (bbox and color), ids absent from the
inventory are skipped. -/
theorem rebuild_entries_lookup (l : List (String × Attachment)) :
    ∀ (st st' : AppState),
      (l.map Prod.fst).Nodup →
      rebuild_entries st (l.map (fun p => (p.1, savedOfAttachment p.2))) = .ok st' →
      st'.inv = st.inv ∧
      ∀ id, lookup st'.attach id =
        match lookup l id with
        | some a => if (lookup st.inv id).isSome then some a else lookup st.attach id
        | none => lookup st.attach id := by
  induction l with
  | nil =>
    intro st st' _ h
    simp only [List.map_nil, rebuild_entries, Except.ok.injEq] at h
    subst h
    exact ⟨rfl, fun id => by rw [lookup_nil]⟩
  | cons p rest ih =>
    intro st st' hnd h
    obtain ⟨k, a⟩ := p
    have hnd0 : (k :: rest.map Prod.fst).Nodup := by simpa using hnd
    obtain ⟨hknotin, hnd'⟩ := List.nodup_cons.mp hnd0
    have hrk : lookup rest k = none := (lookup_eq_none_iff rest k).mpr hknotin
    simp only [List.map_cons, rebuild_entries] at h
    cases hinv : lookup st.inv k with
    | none =>
      rw [hinv] at h
      dsimp only at h
      obtain ⟨hinv', hlook⟩ := ih st st' hnd' h
      refine ⟨hinv', fun id => ?_⟩
      by_cases hid : id = k
      · subst hid
        rw [lookup_cons, if_pos rfl]
        have := hlook id
        rw [hrk] at this
        rw [this, hinv]
        rfl
      · rw [lookup_cons, if_neg hid]
        exact hlook id
    | some invItem =>
      rw [hinv] at h
      dsimp only at h
      obtain ⟨hinv', hlook⟩ := ih _ st' hnd' h
      refine ⟨hinv', fun id => ?_⟩
      by_cases hid : id = k
      · subst hid
        rw [lookup_cons, if_pos rfl]
        have := hlook id
        rw [hrk] at this
        rw [this]
        dsimp only
        rw [lookup_insertEntry_self, hinv]
        rfl
      · rw [lookup_cons, if_neg hid]
        have := hlook id
        rw [this]
        dsimp only
        rw [lookup_insertEntry_ne st.attach k id _ hid]

/-- C7: saving the attachment layout and loading it back into a fresh
session (empty attachment and canvas stores — attachments and render intent
are created and destroyed together, and both start empty) reproduces, for
every id still in the inventory, exactly the same bbox and color in the
attachment store, silently omits every persisted id without an inventory
record, and never turns the reserved `_layout`/`_window` keys into
attachments (they are popped before reconstruction; their payloads go to the
external pane/window collaborators). -/
theorem C7_save_load_roundtrip (st1 st2 st3 : AppState) (lp wp : String)
    (hnd : (st1.attach.map Prod.fst).Nodup)
    (ha2 : st2.attach = []) (hc2 : st2.canvas = [])
    (hr1 : lookup st1.attach "_layout" = none) (hr2 : lookup st1.attach "_window" = none)
    (h : load_attachments st2 (save_attachments st1 lp wp) = .ok st3) :
    ∀ id, lookup st3.attach id =
      if (lookup st2.inv id).isSome then lookup st1.attach id else none := by
  unfold load_attachments at h
  rw [hc2] at h
  dsimp only [List.map_nil, delete_each] at h
  rw [save_attachments_erased st1 lp wp hnd hr1 hr2] at h
  cases hre : rebuild_entries st2 (st1.attach.map (fun p => (p.1, savedOfAttachment p.2))) with
  | error e => rw [hre] at h; exact absurd h (by simp)
  | ok st4 =>
    rw [hre] at h
    obtain ⟨hinv4, hlook4⟩ := rebuild_entries_lookup st1.attach st2 st4
      hnd hre
    have parts := sync_all_parts h
    intro id
    rw [parts.2.1, hlook4 id]
    cases hl1 : lookup st1.attach id with
    | none =>
      dsimp only
      rw [ha2, lookup_nil]
      by_cases hi : (lookup st2.inv id).isSome = true
      · rw [if_pos hi]
      · rw [if_neg hi]
    | some a =>
      dsimp only
      rw [ha2, lookup_nil]

/-- Witness for C7, Scenario E: `"a"` survives the save→load round trip with
identical bbox and color (and `"gone"`, dropped from the inventory, is
silently omitted — its lookup and the formula both yield `none`). -/
theorem C7_save_load_roundtrip_witness :
    lookup exC7'.attach "a" =
      (if (lookup exC7load.inv "a").isSome then lookup exC7save.attach "a" else none) :=
  C7_save_load_roundtrip exC7save exC7load exC7' "L" "W"
    (by decide) (by decide) (by decide) (by decide) (by decide) (by decide) "a"

end MarginaliaAtlas
